import Mathlib

/-!
Verification development for the hylir-systems/dispatch-board repository.

The definitions below are shallow embeddings of the TypeScript source:

* src/src/app/pages/DispatchPage.tsx  (formatTime, getRiskLevel, getOrderStatus,
  transformOrders, transformAlerts, loadFactoryInfo, loadData)
* src/src/app/components/ShippingTable.tsx  (auto-scroll controller)
* src/src/app/utils/fetch.ts  (FetchHttp.request retry loop)
* src/unnamed/part_002  (ReceiptWarning visibility)

JavaScript dynamic values are modelled explicitly: the delivered flag
(boolean | number | string | undefined) becomes the JsFlag inductive, optional
fields become Option, JS truthiness and the host string methods (trim,
toLowerCase, includes, padStart, parseInt, the Date constructor) are modelled
as the small total functions below.  Asynchronous operations are modelled by
passing their outcome explicitly (Except for a call that can throw, a list of
scripted attempt outcomes for the HTTP retry loop, an event list for the
animation/scroll loop).
-/

/-- Model of the runtime value stored in the isDelivered field of a backend
record: a JS boolean, number, string, or an absent (undefined) field.
JS NaN never reaches this field from JSON, so numbers are modelled as Int. -/
inductive JsFlag where
  | bool (b : Bool)
  | num (n : Int)
  | str (s : String)
  | absent
deriving DecidableEq

/-- JS truthiness of a JsFlag value: false, 0, the empty string and undefined
are falsy, everything else is truthy. -/
def truthy : JsFlag → Bool
  | JsFlag.bool b => b
  | JsFlag.num n => n != 0
  | JsFlag.str s => s != ""
  | JsFlag.absent => false

/-- JS truthiness of an optional boolean field (undefined is falsy). -/
def truthyOB : Option Bool → Bool
  | Option.some b => b
  | Option.none => false

/-- JS whitespace characters recognised by parseInt / trim (ASCII subset). -/
def isJsWs (c : Char) : Bool :=
  c == ' ' || c == '\t' || c == '\n' || c == '\r' || c == '\x0b' || c == '\x0c'

/-- Longest prefix of decimal digits of a character list. -/
def digitsOf : List Char → List Char
  | [] => []
  | c :: cs => if c.isDigit then c :: digitsOf cs else []

/-- Numeric value of a list of decimal digits. -/
def digitsToNat (l : List Char) : Nat :=
  l.foldl (fun acc c => acc * 10 + (c.toNat - 48)) 0

/-- Model of the host parseInt(s, 10): skip leading whitespace, read an
optional sign and then the longest decimal-digit prefix; the result is NaN
(modelled as Option.none) when no digit is found. -/
def parseIntJS (s : String) : Option Int :=
  match s.data.dropWhile isJsWs with
  | '-' :: rest =>
    let ds := digitsOf rest
    if ds.isEmpty then Option.none else Option.some (-(Int.ofNat (digitsToNat ds)))
  | '+' :: rest =>
    let ds := digitsOf rest
    if ds.isEmpty then Option.none else Option.some (Int.ofNat (digitsToNat ds))
  | rest =>
    let ds := digitsOf rest
    if ds.isEmpty then Option.none else Option.some (Int.ofNat (digitsToNat ds))

/-- Order status enumeration of DispatchPage.tsx. -/
inductive OrderStatus where
  | shipped
  | pending
  | delayed
deriving DecidableEq

/-- Order risk enumeration of DispatchPage.tsx. -/
inductive OrderRisk where
  | low
  | medium
  | high
  | none
deriving DecidableEq

/-- Translation of getOrderStatus (DispatchPage.tsx lines 114-121): a boolean
flag maps directly; a string flag goes through parseInt; the resulting JS
value decides shipped/pending by truthiness (undefined and NaN are falsy). -/
def getOrderStatus : JsFlag → OrderStatus
  | JsFlag.bool b => if b then OrderStatus.shipped else OrderStatus.pending
  | JsFlag.str s =>
    match parseIntJS s with
    | Option.some v => if v != 0 then OrderStatus.shipped else OrderStatus.pending
    | Option.none => OrderStatus.pending
  | JsFlag.num n => if n != 0 then OrderStatus.shipped else OrderStatus.pending
  | JsFlag.absent => OrderStatus.pending

/-- Translation of getRiskLevel (DispatchPage.tsx lines 99-111). -/
def getRiskLevel : Option String → OrderRisk
  | Option.some "DELAYED" => OrderRisk.high
  | Option.some "AT_RISK" => OrderRisk.medium
  | Option.some "DELIVERED" => OrderRisk.none
  | Option.some "ON_TIME" => OrderRisk.none
  | _ => OrderRisk.none

/-- JS string-or-default idiom (x || d) for an optional string: null,
undefined and the empty string fall back to the default. -/
def orDefault (o : Option String) (d : String) : String :=
  match o with
  | Option.some s => if s == "" then d else s
  | Option.none => d

/-- Model of the host Date API used by formatTime: parse a timestamp string
to local (hours, minutes); Option.none models an Invalid Date.  The model
accepts ISO-like strings YYYY-MM-DD(T or space)HH:MM..., treating local time
as the parsed clock time; every other string is an Invalid Date.  This models
the platform Date constructor, not repository code. -/
def jsParseHM (s : String) : Option (Nat × Nat) :=
  match s.data with
  | y1 :: y2 :: y3 :: y4 :: '-' :: m1 :: m2 :: '-' :: d1 :: d2 :: sep :: h1 :: h2 :: ':' :: n1 :: n2 :: _ =>
    if ([y1, y2, y3, y4, m1, m2, d1, d2, h1, h2, n1, n2].all Char.isDigit
        && (sep == 'T' || sep == ' ')) then
      let h := (h1.toNat - 48) * 10 + (h2.toNat - 48)
      let mi := (n1.toNat - 48) * 10 + (n2.toNat - 48)
      if h < 24 && mi < 60 then Option.some (h, mi) else Option.none
    else Option.none
  | _ => Option.none

/-- Model of the host number-to-string conversion for a JS number that may be
NaN (Option.none): NaN prints as the three-character string NaN. -/
def jsNumToString : Option Nat → String
  | Option.none => "NaN"
  | Option.some n => toString n

/-- Model of the host padStart(2, zero): pad on the left with zeros up to
length 2; longer strings (including NaN) are returned unchanged. -/
def padStart2 (s : String) : String :=
  if s.length ≥ 2 then s else if s.length == 1 then "0" ++ s else "00"

/-- Translation of formatTime (DispatchPage.tsx lines 86-96).  A falsy
argument (undefined or the empty string) yields the dash placeholder.
Otherwise the code builds new Date(timeStr) and formats getHours/getMinutes
with padStart.  The Date constructor never throws: an unparseable string
yields an Invalid Date whose getHours/getMinutes are NaN, so the catch branch
returning the dash is unreachable and is therefore absent from this model. -/
def formatTime (timeStr : Option String) : String :=
  match timeStr with
  | Option.none => "-"
  | Option.some s =>
    if s == "" then "-"
    else
      let d := jsParseHM s
      let hours := padStart2 (jsNumToString (d.map Prod.fst))
      let minutes := padStart2 (jsNumToString (d.map Prod.snd))
      hours ++ ":" ++ minutes

/-- Fields of a backend dispatch record used by DispatchPage.tsx
(src/src/app/api/types.ts, DispatchBoardFlightVO). -/
structure DispatchRecord where
  sheetNo : Option String := Option.none
  supplyType : Option String := Option.none
  deliveryRecName : Option String := Option.none
  lastRecRequireTime : Option String := Option.none
  isDelivered : JsFlag := JsFlag.absent
  hasReceipt : Option Bool := Option.none
  riskFlag : Option String := Option.none
deriving DecidableEq

/-- View-model order entity of DispatchPage.tsx. -/
structure OrderVM where
  id : String
  type : String
  receiver : String
  requestTime : String
  status : OrderStatus
  hasReturn : Bool
  risk : OrderRisk
  riskFlag : Option String
deriving DecidableEq

/-- View-model alert entity of DispatchPage.tsx. -/
structure AlertVM where
  id : String
  message : String
  timestamp : String
deriving DecidableEq

/-- Element mapping of transformOrders (DispatchPage.tsx lines 124-135). -/
def toOrder (r : DispatchRecord) : OrderVM :=
  { id := orDefault r.sheetNo ""
    type := orDefault r.supplyType "-"
    receiver := orDefault r.deliveryRecName "-"
    requestTime := formatTime r.lastRecRequireTime
    status := getOrderStatus r.isDelivered
    hasReturn := truthyOB r.hasReceipt
    risk := getRiskLevel r.riskFlag
    riskFlag := r.riskFlag }

/-- Translation of transformOrders (DispatchPage.tsx lines 124-135). -/
def transformOrders (rs : List DispatchRecord) : List OrderVM :=
  rs.map toOrder

/-- Filter predicate of transformAlerts and of the delayedCount aggregate:
riskFlag strictly equals the string DELAYED and hasReceipt is falsy. -/
def alertPred (r : DispatchRecord) : Bool :=
  r.riskFlag == Option.some "DELAYED" && !(truthyOB r.hasReceipt)

/-- Element mapping of transformAlerts (DispatchPage.tsx lines 142-146). -/
def toAlert (r : DispatchRecord) : AlertVM :=
  { id := orDefault r.sheetNo ""
    message := "超时未发货"
    timestamp := formatTime r.lastRecRequireTime }

/-- Translation of transformAlerts (DispatchPage.tsx lines 138-147):
filter, slice(0, 8), map. -/
def transformAlerts (rs : List DispatchRecord) : List AlertVM :=
  ((rs.filter alertPred).take 8).map toAlert

/-- Summary aggregate of DispatchPage.tsx. -/
structure Summary where
  totalCount : Nat
  deliveredCount : Nat
  pendingCount : Nat
  delayedCount : Nat
  receiptCount : Nat
deriving DecidableEq

/-- Count of records with a truthy isDelivered flag (loadData line 199). -/
def deliveredCount (rs : List DispatchRecord) : Nat :=
  (rs.filter (fun r => truthy r.isDelivered)).length

/-- Count of records with a truthy hasReceipt flag (loadData line 200). -/
def receiptCount (rs : List DispatchRecord) : Nat :=
  (rs.filter (fun r => truthyOB r.hasReceipt)).length

/-- Count of DELAYED records without receipt (loadData line 201). -/
def delayedCount (rs : List DispatchRecord) : Nat :=
  (rs.filter alertPred).length

/-- Count of records with a truthy hasReceipt and isDelivered strictly equal
to the boolean false (loadData lines 202-204). -/
def pendingWithReceipt (rs : List DispatchRecord) : Nat :=
  (rs.filter (fun r => truthyOB r.hasReceipt && r.isDelivered == JsFlag.bool false)).length

/-- Summary construction of loadData (DispatchPage.tsx lines 206-212). -/
def mkSummary (rs : List DispatchRecord) : Summary :=
  { totalCount := rs.length
    deliveredCount := deliveredCount rs
    pendingCount := rs.length - deliveredCount rs
    delayedCount := delayedCount rs
    receiptCount := receiptCount rs }

/-- Visibility condition of the receipt warning banner
(src/unnamed/part_002, ReceiptWarning, showWarning). -/
def showWarning (pendingWithReceiptCount rCount dCount : Nat) : Bool :=
  decide (pendingWithReceiptCount > 0) || decide (rCount > dCount)

/-- RefreshState: the state slices owned by DispatchPage (orders, summary,
alerts, pendingWithReceiptCount, lastUpdateTime, loading) together with the
no-data polling timer handle.  The timer is modelled as the interval (in
milliseconds) of the armed recurring timer re-invoking loadData, or
Option.none when no timer is armed (refreshTimerRef.current === null). -/
structure RefreshState where
  orders : List OrderVM
  summary : Summary
  alerts : List AlertVM
  pendingWithReceiptCount : Nat
  lastUpdateTime : String
  refreshTimer : Option Nat
  loading : Bool
deriving DecidableEq

/-- No-data refresh interval constant of DispatchPage.tsx (line 72). -/
def NO_DATA_REFRESH_INTERVAL : Nat := 5 * 60 * 1000

/-- Translation of loadData (DispatchPage.tsx lines 174-248) as a state
transformer.  The single awaited fetch either throws (Except.error, taken by
the catch branch which only logs) or returns the record list (Except.ok).
On success every slice is replaced from the fresh record set, the no-data
timer is re-armed or disarmed according to whether the transformed order list
is empty, and lastUpdateTime is set to the completion wall-clock string.  The
finally branch clears the loading flag on both paths. -/
def loadData (st : RefreshState) (fetched : Except Unit (List DispatchRecord))
    (clock : String) : RefreshState :=
  match fetched with
  | Except.error _ => { st with loading := false }
  | Except.ok records =>
    let transformedOrders := transformOrders records
    let st1 := { st with
      orders := transformedOrders
      alerts := transformAlerts records
      summary := mkSummary records
      pendingWithReceiptCount := pendingWithReceipt records }
    let hasData := decide (transformedOrders.length > 0)
    let st2 :=
      if !hasData then { st1 with refreshTimer := Option.some NO_DATA_REFRESH_INTERVAL }
      else { st1 with refreshTimer := Option.none }
    { st2 with lastUpdateTime := clock, loading := false }

/-- Scroll geometry of the table container element (ShippingTable.tsx):
scrollHeight and clientHeight, fixed during one scroll cycle. -/
structure ScrollEnv where
  scrollHeight : Int
  clientHeight : Int
deriving DecidableEq

/-- Maximum scroll offset of the container (scrollHeight - clientHeight). -/
def maxScroll (e : ScrollEnv) : Int := e.scrollHeight - e.clientHeight

/-- Scroll speed constant of ShippingTable.tsx (line 50). -/
def SCROLL_SPEED : Int := 1

/-- Bottom threshold constant of ShippingTable.tsx (line 52). -/
def BOTTOM_THRESHOLD : Int := 50

/-- Controller state of ShippingTable.tsx: the shouldScroll and isAtBottom
refs, the scrollTop of the container, and an instrumentation counter fired
counting how many times the onRefresh callback was invoked in the current
cycle. -/
structure ScrollState where
  shouldScroll : Bool
  isAtBottom : Bool
  scrollTop : Int
  fired : Nat
deriving DecidableEq

/-- State installed on entry to a scroll cycle (ShippingTable.tsx lines
90-97): shouldScroll true, isAtBottom false, scrollTop reset to top; no
callback has fired yet in the new cycle. -/
def resetState : ScrollState :=
  { shouldScroll := true, isAtBottom := false, scrollTop := 0, fired := 0 }

/-- Events driving the controller within one cycle: a frame of the animation
loop (animate, lines 100-117), or a manual scroll event that first moves
scrollTop to the given offset and then runs handleScroll (lines 67-79). -/
inductive ScrollEv where
  | frame
  | scrollTo (top : Int)
deriving DecidableEq

/-- One controller step.  A frame does nothing once shouldScroll is false;
at or beyond the bottom threshold it stops the loop, marks the bottom and
invokes the callback; otherwise it advances scrollTop by SCROLL_SPEED.  A
manual scroll updates scrollTop (done by the browser before the event fires),
then handleScroll returns early unless shouldScroll is true, firing the same
bottom transition at the threshold. -/
def scrollStep (e : ScrollEnv) (s : ScrollState) : ScrollEv → ScrollState
  | ScrollEv.frame =>
    if !s.shouldScroll then s
    else if s.scrollTop ≥ maxScroll e - BOTTOM_THRESHOLD then
      { s with shouldScroll := false, isAtBottom := true, fired := s.fired + 1 }
    else { s with scrollTop := s.scrollTop + SCROLL_SPEED }
  | ScrollEv.scrollTo t =>
    let s1 := { s with scrollTop := t }
    if !s1.shouldScroll then s1
    else if s1.scrollTop ≥ maxScroll e - BOTTOM_THRESHOLD then
      { s1 with shouldScroll := false, isAtBottom := true, fired := s1.fired + 1 }
    else s1

/-- Effect body guard of ShippingTable.tsx (lines 82-98): when autoScroll is
off or the order list is empty the effect returns before resetting state or
scheduling the animation loop; otherwise the cycle state is reset and the
first frame is scheduled.  The boolean result records whether an animation
loop was scheduled. -/
def cycleStart (orders : List OrderVM) (autoScroll : Bool) (s : ScrollState) :
    ScrollState × Bool :=
  if !autoScroll || orders.length == 0 then (s, false)
  else (resetState, true)

/-- Early-return rendering condition of ShippingTable.tsx (line 130): with an
empty order list the component renders the explicit empty state (and no
scroll container, hence no scroll events and no animation). -/
def rendersEmptyState (orders : List OrderVM) : Bool :=
  orders.length == 0

/-- Envelope code of the backend response: a JS number or string. -/
inductive RespCode where
  | num (n : Int)
  | str (s : String)
deriving DecidableEq

/-- Success test of FetchHttp.request (fetch.ts line 229). -/
def isSuccessCode (c : RespCode) : Bool :=
  c == RespCode.num 0 || c == RespCode.num 200 || c == RespCode.str "0" ||
    c == RespCode.str "200" || c == RespCode.str "success"

/-- Printed form of an envelope code used in error messages. -/
def codeRepr : RespCode → String
  | RespCode.num n => toString n
  | RespCode.str s => s

/-- Backend JSON envelope (fetch.ts ApiResponse); the payload is kept
opaque as a string. -/
structure Envelope where
  code : RespCode
  msg : String
  data : String
deriving DecidableEq

/-- Model of the FetchError class of fetch.ts. -/
structure FetchErrorM where
  message : String
  code : Option RespCode
  status : Option Nat
  isNetworkError : Bool
deriving DecidableEq

/-- An exception raised inside the try block: either a FetchError built by
the code itself, or a host JS error (network failure, abort) carrying its
name and message. -/
inductive Raised where
  | fetchErr (e : FetchErrorM)
  | jsErr (name : String) (message : String)
deriving DecidableEq

/-- Outcome of one fetch attempt as seen by the try block: an HTTP response
with a status and a JSON envelope body, or the fetch promise rejecting with a
host error (a network failure, or the AbortError produced by the timeout
controller).  The non-JSON-body branch of fetch.ts (lines 203-212) is outside
the modelled behaviour: every response body here is the standard envelope. -/
inductive AttemptOutcome where
  | response (status : Nat) (body : Envelope)
  | thrown (name : String) (message : String)
deriving DecidableEq

/-- Translation of the try block of FetchHttp.request (fetch.ts lines
166-241) on one attempt outcome: non-ok responses raise a FetchError (4xx
non-retryable, others marked as network errors hence retryable); ok
responses are unwrapped, raising a non-network FetchError on a non-success
envelope code; a rejected fetch re-raises the host error. -/
def tryAttempt : AttemptOutcome → Except Raised String
  | AttemptOutcome.thrown n m => Except.error (Raised.jsErr n m)
  | AttemptOutcome.response status body =>
    if status < 200 || status ≥ 300 then
      if status ≥ 400 && status < 500 then
        Except.error (Raised.fetchErr
          { message := "请求错误: " ++ toString status
            code := Option.none
            status := Option.some status
            isNetworkError := false })
      else
        Except.error (Raised.fetchErr
          { message := "服务器错误: " ++ toString status
            code := Option.none
            status := Option.some status
            isNetworkError := true })
    else
      if isSuccessCode body.code then Except.ok body.data
      else
        Except.error (Raised.fetchErr
          { message := orDefault (Option.some body.msg) ("API Error: " ++ codeRepr body.code)
            code := Option.some body.code
            status := Option.some status
            isNetworkError := false })

/-- Model of the JS substring test a.includes(b) over character lists. -/
def leadsWith : List Char → List Char → Bool
  | [], _ => true
  | _ :: _, [] => false
  | a :: as, b :: bs => a == b && leadsWith as bs

/-- Character-list search used by containsSub. -/
def containsChars (sub : List Char) : List Char → Bool
  | [] => sub.isEmpty
  | l@(_ :: rest) => leadsWith sub l || containsChars sub rest

/-- Model of the JS string method includes. -/
def containsSub (s sub : String) : Bool :=
  containsChars sub.data s.data

/-- Model of the JS string method toLowerCase for the ASCII letters that
occur in the error messages involved. -/
def lowerStr (s : String) : String :=
  String.mk (s.data.map (fun c =>
    if 65 ≤ c.toNat && c.toNat ≤ 90 then Char.ofNat (c.toNat + 32) else c))

/-- Translation of FetchHttp.isRetryableError (fetch.ts lines 289-307):
a FetchError is retryable iff it is marked as a network error; any other
host error is retryable iff its message matches the keyword list. -/
def isRetryableError : Raised → Bool
  | Raised.fetchErr e => e.isNetworkError
  | Raised.jsErr _ msg =>
    containsSub msg "fetch failed" || containsSub msg "network" ||
      containsSub (lowerStr msg) "timeout" || containsSub msg "Failed to fetch" ||
      containsSub msg "NetworkError" || containsSub msg "ECONNREFUSED" ||
      containsSub msg "ENOTFOUND"

/-- Error translation on the final (non-retrying) throw path of the catch
block (fetch.ts lines 263-275): an AbortError becomes the typed timeout
FetchError, a FetchError is re-thrown unchanged, and any other host error is
wrapped as a network FetchError. -/
def finalizeError : Raised → FetchErrorM
  | Raised.fetchErr e => e
  | Raised.jsErr n msg =>
    if n == "AbortError" then
      { message := "请求超时", code := Option.none, status := Option.none,
        isNetworkError := false }
    else
      { message := msg, code := Option.none, status := Option.none,
        isNetworkError := true }

/-- FetchError test of the immediate-propagation guard (fetch.ts line 246):
a FetchError that is not a network error is thrown without retry. -/
def isFetchNonNetwork : Raised → Bool
  | Raised.fetchErr e => !e.isNetworkError
  | Raised.jsErr _ _ => false

/-- Default retry count of FetchHttp (fetch.ts line 85). -/
def defaultRetry : Nat := 3

/-- Default retry delay in milliseconds of FetchHttp (fetch.ts line 86). -/
def defaultRetryDelay : Nat := 1000

/-- Default request timeout in milliseconds of FetchHttp (fetch.ts line 84). -/
def defaultTimeout : Nat := 30000

/-- Translation of the retry loop of FetchHttp.request (fetch.ts lines
159-284) over a list of scripted attempt outcomes.  A FetchError that is not
a network error propagates immediately; otherwise the loop retries while
attempts remain (attempt < retry) and the error is retryable, and finalizes
the error on exit.  An empty outcome list corresponds to the unreachable
fall-through after the loop (fetch.ts lines 280-283). -/
def requestLoop (retry : Nat) : Nat → List AttemptOutcome → Except FetchErrorM String
  | _, [] =>
    Except.error
      { message := "请求失败"
        code := Option.none
        status := Option.none
        isNetworkError := true }
  | attempt, a :: rest =>
    match tryAttempt a with
    | Except.ok d => Except.ok d
    | Except.error e =>
      if isFetchNonNetwork e then Except.error (finalizeError e)
      else if decide (attempt < retry) && isRetryableError e then
        requestLoop retry (attempt + 1) rest
      else Except.error (finalizeError e)

/-- FetchHttp.request with the default retry budget, starting at attempt 0. -/
def fetchRequest (attempts : List AttemptOutcome) : Except FetchErrorM String :=
  requestLoop defaultRetry 0 attempts

/-- Model of the JS string method trim over the ASCII whitespace subset. -/
def jsTrim (s : String) : String :=
  String.mk (((s.data.dropWhile isJsWs).reverse.dropWhile isJsWs).reverse)

/-- Model of URLSearchParams.get: the value of the first query pair whose key
equals the requested name exactly (the lookup is case-sensitive), or null. -/
def urlGet (q : List (String × String)) (k : String) : Option String :=
  (q.find? (fun p => p.fst == k)).map Prod.snd

/-- JS short-circuit disjunction a || b on nullable strings: null, undefined
and the empty string are falsy. -/
def jsOrS (a b : Option String) : Option String :=
  match a with
  | Option.some s => if s == "" then b else Option.some s
  | Option.none => b

/-- Translation of the factory-code resolution of loadFactoryInfo
(DispatchPage.tsx lines 152-161): the factoryCode query parameter, else the
factorycode query parameter (both by exact spelling), with empty values
falling through; the chosen value is trimmed and, when the trimmed value is
empty, resolution falls through directly to the VITE_FACTORY_CODE environment
value (envDefault) and then to the literal default constant. -/
def resolveFactoryCode (q : List (String × String)) (envDefault : Option String) : String :=
  let factoryCodeFromUrl := jsOrS (urlGet q "factoryCode") (jsOrS (urlGet q "factorycode") Option.none)
  let trimmedUrl : Option String :=
    match factoryCodeFromUrl with
    | Option.some s => Option.some (jsTrim s)
    | Option.none => Option.none
  match jsOrS trimmedUrl (jsOrS envDefault Option.none) with
  | Option.some s => s
  | Option.none => "DEFAULT_FACTORY_CODE"

/-- Formalisation of the resolution order as claim C8 words it: the first of
the factoryCode parameter, the factorycode parameter matched
case-insensitively, and the configured default whose trimmed value is
non-empty wins.  This definition follows the claim text, for comparison with
resolveFactoryCode which follows the source. -/
def firstNonEmptyTrimmed : List (Option String) → Option String
  | [] => Option.none
  | Option.some s :: rest =>
    if jsTrim s == "" then firstNonEmptyTrimmed rest else Option.some (jsTrim s)
  | Option.none :: rest => firstNonEmptyTrimmed rest

/-- Claim-side factory-code resolution (the claim C8 reading): first
non-empty trimmed value among the factoryCode parameter, the factorycode
parameter matched case-insensitively, then the configured default. -/
def resolveFactoryCodeClaim (q : List (String × String)) (envDefault : Option String) : String :=
  let cand1 := urlGet q "factoryCode"
  let cand2 := (q.find? (fun p => lowerStr p.fst == "factorycode")).map Prod.snd
  match firstNonEmptyTrimmed [cand1, cand2] with
  | Option.some v => v
  | Option.none =>
    match jsOrS envDefault Option.none with
    | Option.some e => e
    | Option.none => "DEFAULT_FACTORY_CODE"

/-- Factory lookup response fields (src/src/app/api/types.ts, FactoryInfo). -/
structure FactoryInfo where
  factoryId : Option String := Option.none
  factoryCode : Option String := Option.none
  factoryName : Option String := Option.none
  factoryShortName : Option String := Option.none
deriving DecidableEq

/-- Display-name outcome of loadFactoryInfo (DispatchPage.tsx lines 162-170):
on API success the name is info.factoryName with the em-dash fallback for a
missing or empty name; on any failure the catch branch sets the em-dash. -/
def factoryDisplayName (res : Except Unit FactoryInfo) : String :=
  match res with
  | Except.error _ => "—"
  | Except.ok info => orDefault info.factoryName "—"

/-- Classifier for the first part of claim C10: the delivered flag is a
boolean, a number, or absent (i.e. not a string). -/
def boolNumOrAbsent : JsFlag → Bool
  | JsFlag.str _ => false
  | _ => true

set_option maxRecDepth 8000

theorem beq_as_decide {α : Type} [BEq α] [LawfulBEq α] [DecidableEq α] (a b : α) :
    (a == b) = decide (a = b) := by
  by_cases h : a = b <;> simp [h]

theorem alertPred_eq (r : DispatchRecord) :
    alertPred r = decide (r.riskFlag = Option.some "DELAYED" ∧ r.hasReceipt ≠ Option.some true) := by
  cases h : r.hasReceipt with
  | none => simp [alertPred, truthyOB, h, beq_as_decide]
  | some b => cases b <;> simp [alertPred, truthyOB, h, beq_as_decide]

theorem pendingPred_eq (r : DispatchRecord) :
    (truthyOB r.hasReceipt && r.isDelivered == JsFlag.bool false)
      = decide (r.hasReceipt = Option.some true ∧ r.isDelivered = JsFlag.bool false) := by
  cases h : r.hasReceipt with
  | none => simp [truthyOB, h]
  | some b => cases b <;> simp [truthyOB, h, beq_as_decide]

theorem truthy_eq_shipped (f : JsFlag) (h : boolNumOrAbsent f = true) :
    truthy f = (getOrderStatus f == OrderStatus.shipped) := by
  cases f with
  | bool b => cases b <;> rfl
  | num n =>
    by_cases hn : n = 0
    · simp [truthy, getOrderStatus, hn]
    · simp [truthy, getOrderStatus, hn]
  | str s => simp [boolNumOrAbsent] at h
  | absent => rfl

theorem scrollStep_inv (e : ScrollEnv) (s : ScrollState) (ev : ScrollEv)
    (h1 : s.fired ≤ 1) (h2 : s.shouldScroll = true → s.fired = 0) :
    (scrollStep e s ev).fired ≤ 1
      ∧ ((scrollStep e s ev).shouldScroll = true → (scrollStep e s ev).fired = 0) := by
  cases ev with
  | frame =>
    by_cases hs : s.shouldScroll
    · have hf : s.fired = 0 := h2 hs
      by_cases ht : s.scrollTop ≥ maxScroll e - BOTTOM_THRESHOLD
      · simp [scrollStep, hs, ht, hf]
      · simp [scrollStep, hs, ht, hf]
    · have hs' : s.shouldScroll = false := by simpa using hs
      simp [scrollStep, hs']
      exact h1
  | scrollTo t =>
    by_cases hs : s.shouldScroll
    · have hf : s.fired = 0 := h2 hs
      by_cases ht : (t : Int) ≥ maxScroll e - BOTTOM_THRESHOLD
      · simp [scrollStep, hs, ht, hf]
      · simp [scrollStep, hs, ht, hf]
    · have hs' : s.shouldScroll = false := by simpa using hs
      simp [scrollStep, hs']
      exact h1

theorem scrollFold_fired (e : ScrollEnv) (evs : List ScrollEv) :
    ∀ s : ScrollState, s.fired ≤ 1 → (s.shouldScroll = true → s.fired = 0) →
      (evs.foldl (scrollStep e) s).fired ≤ 1 := by
  induction evs with
  | nil => intro s h1 _; exact h1
  | cons ev rest ih =>
    intro s h1 h2
    have h := scrollStep_inv e s ev h1 h2
    exact ih (scrollStep e s ev) h.1 h.2

theorem requestLoop_take (retry : Nat) (l : List AttemptOutcome) :
    ∀ attempt, attempt ≤ retry →
      requestLoop retry attempt l = requestLoop retry attempt (l.take (retry + 1 - attempt)) := by
  induction l with
  | nil => intro attempt h; simp
  | cons a rest ih =>
    intro attempt h
    have hs : retry + 1 - attempt = (retry - attempt) + 1 := by omega
    rw [hs, List.take_succ_cons]
    simp only [requestLoop]
    cases htry : tryAttempt a with
    | ok d => rfl
    | error e =>
      by_cases hf : isFetchNonNetwork e
      · simp [hf]
      · by_cases hr : attempt < retry
        · by_cases hre : isRetryableError e
          · simp only [hf, hr, hre, Bool.false_eq_true, if_false, decide_True,
              Bool.true_and, Bool.and_true, if_true]
            have hsub : retry - attempt = retry + 1 - (attempt + 1) := by omega
            rw [hsub]
            exact ih (attempt + 1) (by omega)
          · simp [hf, hre]
        · simp [hf, hr]

/-- C1: after every successful completion of loadData the no-data polling
timer is armed (as a recurring timer with the 5-minute interval) if and only
if the transformed order list of that fetch is empty; when the result set is
non-empty the timer handle is cleared, so no wall-clock polling is armed
while data is present. -/
theorem C1_no_data_timer_policy :
    (∀ (st : RefreshState) (records : List DispatchRecord) (clock : String),
      (loadData st (Except.ok records) clock).refreshTimer
        = (if (transformOrders records).isEmpty then Option.some NO_DATA_REFRESH_INTERVAL
           else Option.none))
    ∧ NO_DATA_REFRESH_INTERVAL = 5 * 60 * 1000 := by
  refine ⟨?_, rfl⟩
  intro st records clock
  cases records with
  | nil => rfl
  | cons r rs => simp [loadData, transformOrders]

/-- C2: within one scroll cycle (started by the reset that a change of the
order list or refresh key triggers) the bottom-reached callback fires at most
once over any interleaving of animation frames and manual scroll events; with
an empty order list the effect schedules no animation and the component
renders the empty state, so the callback never fires; and the callback does
fire (exactly once) when the threshold is reached, by frames or by a manual
scroll. -/
theorem C2_bottom_callback_once_per_cycle :
    (∀ (e : ScrollEnv) (evs : List ScrollEv),
      ((evs.foldl (scrollStep e) resetState).fired) ≤ 1)
    ∧ (∀ (s : ScrollState) (auto : Bool), cycleStart [] auto s = (s, false))
    ∧ rendersEmptyState [] = true
    ∧ ((List.replicate 51 ScrollEv.frame).foldl
        (scrollStep { scrollHeight := 200, clientHeight := 100 }) resetState).fired = 1
    ∧ (scrollStep { scrollHeight := 200, clientHeight := 100 } resetState
        (ScrollEv.scrollTo 60)).fired = 1 := by
  refine ⟨?_, ?_, rfl, by decide, by decide⟩
  · intro e evs
    exact scrollFold_fired e evs resetState (by decide) (fun _ => rfl)
  · intro s auto
    cases auto <;> rfl

/-- C3: when the fetch inside loadData throws, every state slice (orders,
summary, alerts, pendingWithReceiptCount, lastUpdateTime and the polling
timer handle) keeps its prior value, and lastUpdateTime is set to the
completion wall-clock time exactly on the success path. -/
theorem C3_failure_leaves_state_untouched :
    (∀ (st : RefreshState) (clock : String),
      (loadData st (Except.error ()) clock).orders = st.orders
      ∧ (loadData st (Except.error ()) clock).summary = st.summary
      ∧ (loadData st (Except.error ()) clock).alerts = st.alerts
      ∧ (loadData st (Except.error ()) clock).pendingWithReceiptCount
          = st.pendingWithReceiptCount
      ∧ (loadData st (Except.error ()) clock).lastUpdateTime = st.lastUpdateTime
      ∧ (loadData st (Except.error ()) clock).refreshTimer = st.refreshTimer)
    ∧ (∀ (st : RefreshState) (records : List DispatchRecord) (clock : String),
      (loadData st (Except.ok records) clock).lastUpdateTime = clock) := by
  constructor
  · intro st clock
    exact ⟨rfl, rfl, rfl, rfl, rfl, rfl⟩
  · intro st records clock
    rfl

/-- C4: the derived order status is shipped for the boolean true, for every
non-zero number and for the string 1; it is pending for the boolean false,
the number 0, the string 0 and an absent flag; and a flag of any other
representation (a string that is not numeric, i.e. on which parseInt yields
NaN) is treated as falsy and yields pending. -/
theorem C4_delivered_flag_normalization :
    getOrderStatus (JsFlag.bool true) = OrderStatus.shipped
    ∧ (∀ n : Int, n ≠ 0 → getOrderStatus (JsFlag.num n) = OrderStatus.shipped)
    ∧ getOrderStatus (JsFlag.str "1") = OrderStatus.shipped
    ∧ getOrderStatus (JsFlag.bool false) = OrderStatus.pending
    ∧ getOrderStatus (JsFlag.num 0) = OrderStatus.pending
    ∧ getOrderStatus (JsFlag.str "0") = OrderStatus.pending
    ∧ getOrderStatus JsFlag.absent = OrderStatus.pending
    ∧ (∀ s : String, parseIntJS s = Option.none →
        getOrderStatus (JsFlag.str s) = OrderStatus.pending) := by
  refine ⟨rfl, ?_, by decide, rfl, by decide, by decide, rfl, ?_⟩
  · intro n hn
    simp [getOrderStatus, hn]
  · intro s hp
    simp [getOrderStatus, hp]

/-- C4 witness: the universally quantified parts of the normalization
theorem applied at the concrete inputs -3 (a non-zero number) and a
non-numeric string. -/
theorem C4_delivered_flag_normalization_witness :
    getOrderStatus (JsFlag.num (-3)) = OrderStatus.shipped
    ∧ getOrderStatus (JsFlag.str "abc") = OrderStatus.pending :=
  ⟨C4_delivered_flag_normalization.2.1 (-3) (by decide),
   C4_delivered_flag_normalization.2.2.2.2.2.2.2 "abc" (by decide)⟩

/-- C5: behaviour of formatTime.  The absent and empty timestamps yield the
dash placeholder and a parseable timestamp yields zero-padded local HH:MM,
but a non-empty unparseable timestamp yields the string NaN:NaN, not the
dash: the Date constructor never throws, getHours of an Invalid Date is NaN,
and the catch branch that would return the dash is dead code. -/
theorem C5_format_time_unparseable :
    formatTime (Option.some "not-a-date") = "NaN:NaN"
    ∧ formatTime Option.none = "-"
    ∧ formatTime (Option.some "") = "-"
    ∧ formatTime (Option.some "2024-03-04T05:07:00") = "05:07"
    ∧ "NaN:NaN" ≠ "-" := by
  refine ⟨by decide, rfl, by decide, by decide, by decide⟩

/-- C6: for every record list the derived alert list is exactly the records
with riskFlag DELAYED and no receipt, in input order, truncated to the first
8 matches and mapped to the id / fixed message / formatted timestamp triple;
in particular its length is the minimum of 8 and the number of such
records. -/
theorem C6_alert_derivation :
    ∀ rs : List DispatchRecord,
      (transformAlerts rs).length
        = min 8 (rs.countP (fun r =>
            decide (r.riskFlag = Option.some "DELAYED" ∧ r.hasReceipt ≠ Option.some true)))
      ∧ transformAlerts rs
        = ((rs.filter (fun r =>
            decide (r.riskFlag = Option.some "DELAYED" ∧ r.hasReceipt ≠ Option.some true))).take 8).map
            (fun r => { id := orDefault r.sheetNo ""
                        message := "超时未发货"
                        timestamp := formatTime r.lastRecRequireTime }) := by
  intro rs
  have hfil : rs.filter alertPred
      = rs.filter (fun r =>
          decide (r.riskFlag = Option.some "DELAYED" ∧ r.hasReceipt ≠ Option.some true)) := by
    apply List.filter_congr
    intro r _
    exact alertPred_eq r
  constructor
  · rw [transformAlerts, List.length_map, List.length_take, hfil,
      List.countP_eq_length_filter]
  · rw [transformAlerts, hfil]
    rfl

/-- C9: pendingWithReceiptCount counts exactly the records with a truthy
hasReceipt whose isDelivered is strictly the boolean false, and the receipt
warning is visible precisely when that count is positive or the receipt
count exceeds the delivered count. -/
theorem C9_pending_with_receipt_warning :
    ∀ rs : List DispatchRecord,
      pendingWithReceipt rs
        = rs.countP (fun r =>
            decide (r.hasReceipt = Option.some true ∧ r.isDelivered = JsFlag.bool false))
      ∧ (showWarning (pendingWithReceipt rs) (receiptCount rs) (deliveredCount rs) = true
          ↔ (0 < pendingWithReceipt rs ∨ deliveredCount rs < receiptCount rs)) := by
  intro rs
  constructor
  · rw [pendingWithReceipt, List.countP_eq_length_filter]
    congr 1
    apply List.filter_congr
    intro r _
    exact pendingPred_eq r
  · simp [showWarning]

/-- C10: summary.deliveredCount counts raw JS-truthy delivered flags while an
order's status normalizes string flags through parseInt, so on record sets
whose present delivered flags are booleans or numbers the delivered count
equals the number of derived orders with shipped status; but a truthy string
flag that parses to 0 or NaN (such as the string 0) is counted as delivered
in the summary while the derived order status is pending. -/
theorem C10_delivered_count_vs_status :
    (∀ rs : List DispatchRecord,
      (∀ r ∈ rs, boolNumOrAbsent r.isDelivered = true) →
      deliveredCount rs
        = ((transformOrders rs).filter (fun o => o.status == OrderStatus.shipped)).length)
    ∧ (∀ s : String, s ≠ "" →
        (parseIntJS s = Option.some 0 ∨ parseIntJS s = Option.none) →
        truthy (JsFlag.str s) = true
        ∧ getOrderStatus (JsFlag.str s) = OrderStatus.pending) := by
  constructor
  · intro rs h
    rw [deliveredCount, ← List.countP_eq_length_filter, ← List.countP_eq_length_filter,
      transformOrders, List.countP_map]
    apply List.countP_congr
    intro r hr
    simp only [Function.comp]
    have := truthy_eq_shipped r.isDelivered (h r hr)
    rw [this]
    constructor
    · intro hx; exact hx
    · intro hx; exact hx
  · intro s hs hp
    constructor
    · simp [truthy, hs]
    · cases hp with
      | inl h0 => simp [getOrderStatus, h0]
      | inr hn => simp [getOrderStatus, hn]

/-- C10 witness: the count equality applied to a concrete record set of a
shipped boolean, a zero number and an absent flag, and the mismatch part
applied to the string 0. -/
theorem C10_delivered_count_vs_status_witness :
    deliveredCount
        [{ isDelivered := JsFlag.bool true }, { isDelivered := JsFlag.num 0 },
         { isDelivered := JsFlag.absent }]
      = ((transformOrders
            [{ isDelivered := JsFlag.bool true }, { isDelivered := JsFlag.num 0 },
             { isDelivered := JsFlag.absent }]).filter
          (fun o => o.status == OrderStatus.shipped)).length
    ∧ (truthy (JsFlag.str "0") = true
        ∧ getOrderStatus (JsFlag.str "0") = OrderStatus.pending) :=
  ⟨C10_delivered_count_vs_status.1
      [{ isDelivered := JsFlag.bool true }, { isDelivered := JsFlag.num 0 },
       { isDelivered := JsFlag.absent }] (by decide),
   C10_delivered_count_vs_status.2 "0" (by decide) (Or.inl (by decide))⟩

/-- C7 counterexample: with a retry budget available and a successful
response scripted as the second attempt, a first-attempt timeout (the host
AbortError, whose message does not contain the word timeout) is NOT retried:
the caller receives the typed timeout error instead of the payload, refuting
the claim that timeout failures are retried.  An ordinary network failure in
the same position IS retried and the caller receives the payload. -/
theorem C7_timeout_not_retried :
    fetchRequest
        [AttemptOutcome.thrown "AbortError" "The operation was aborted",
         AttemptOutcome.response 200 { code := RespCode.num 0, msg := "ok", data := "payload" }]
      = Except.error
          { message := "请求超时", code := Option.none, status := Option.none,
            isNetworkError := false }
    ∧ fetchRequest
        [AttemptOutcome.thrown "TypeError" "Failed to fetch",
         AttemptOutcome.response 200 { code := RespCode.num 0, msg := "ok", data := "payload" }]
      = Except.ok "payload" :=
  ⟨rfl, rfl⟩

/-- C7 amended: the request retries only for 5xx responses and for host
errors whose message matches the retry keyword list, up to 3 retries
(examining at most 4 attempt outcomes) with the 1-second delay constant; a
4xx response and a non-success envelope code raise a typed error immediately
on the first attempt; a timeout abort whose message does not match the
keyword list raises the typed timeout error immediately; and a success
within the retry budget returns the unwrapped payload. -/
theorem C7_retry_policy_amended :
    (∀ (body : Envelope) (rest : List AttemptOutcome),
      fetchRequest (AttemptOutcome.response 404 body :: rest)
        = Except.error
            { message := "请求错误: 404", code := Option.none, status := Option.some 404,
              isNetworkError := false })
    ∧ (∀ (body : Envelope) (rest : List AttemptOutcome),
        isSuccessCode body.code = false →
        fetchRequest (AttemptOutcome.response 200 body :: rest)
          = Except.error
              { message := orDefault (Option.some body.msg) ("API Error: " ++ codeRepr body.code)
                code := Option.some body.code
                status := Option.some 200
                isNetworkError := false })
    ∧ fetchRequest
        [AttemptOutcome.response 500 { code := RespCode.num 0, msg := "", data := "" },
         AttemptOutcome.response 500 { code := RespCode.num 0, msg := "", data := "" },
         AttemptOutcome.response 200 { code := RespCode.num 200, msg := "ok", data := "payload" }]
      = Except.ok "payload"
    ∧ (∀ (msg : String) (rest : List AttemptOutcome),
        isRetryableError (Raised.jsErr "AbortError" msg) = false →
        fetchRequest (AttemptOutcome.thrown "AbortError" msg :: rest)
          = Except.error
              { message := "请求超时", code := Option.none, status := Option.none,
                isNetworkError := false })
    ∧ (∀ l : List AttemptOutcome, fetchRequest l = fetchRequest (l.take (defaultRetry + 1)))
    ∧ defaultRetry = 3 ∧ defaultRetryDelay = 1000 := by
  refine ⟨?_, ?_, rfl, ?_, ?_, rfl, rfl⟩
  · intro body rest
    rfl
  · intro body rest h
    simp [fetchRequest, requestLoop, tryAttempt, h, isFetchNonNetwork, finalizeError]
  · intro msg rest h
    simp [fetchRequest, requestLoop, tryAttempt, isFetchNonNetwork, h, finalizeError]
  · intro l
    have := requestLoop_take defaultRetry l 0 (by omega)
    simpa [fetchRequest] using this

/-- C7 witness: the amended retry-policy theorem applied at a non-success
envelope code on the first attempt and at a concrete timeout abort. -/
theorem C7_retry_policy_amended_witness :
    fetchRequest
        [AttemptOutcome.response 200 { code := RespCode.num 500, msg := "boom", data := "" }]
      = Except.error
          { message := "boom", code := Option.some (RespCode.num 500),
            status := Option.some 200, isNetworkError := false }
    ∧ fetchRequest [AttemptOutcome.thrown "AbortError" "The operation was aborted"]
      = Except.error
          { message := "请求超时", code := Option.none, status := Option.none,
            isNetworkError := false } :=
  ⟨C7_retry_policy_amended.2.1 { code := RespCode.num 500, msg := "boom", data := "" } []
      (by decide),
   C7_retry_policy_amended.2.2.2.1 "The operation was aborted" [] (by decide)⟩

/-- C8 counterexample: the resolution the source implements disagrees with
the resolution the claim describes.  With the factoryCode parameter holding
only whitespace and the factorycode parameter holding ABC, the source falls
through to the literal default (the truthy untrimmed factoryCode value is
chosen, trims to empty, and the chain moves to the environment default,
skipping factorycode); and a query parameter spelled Factorycode is not
matched at all by the source, while a case-insensitive match would find
it. -/
theorem C8_resolution_counterexample :
    resolveFactoryCode [("factorycode", "ABC"), ("factoryCode", "   ")] Option.none
      = "DEFAULT_FACTORY_CODE"
    ∧ resolveFactoryCodeClaim [("factorycode", "ABC"), ("factoryCode", "   ")] Option.none
      = "ABC"
    ∧ resolveFactoryCode [("Factorycode", "X")] Option.none = "DEFAULT_FACTORY_CODE"
    ∧ resolveFactoryCodeClaim [("Factorycode", "X")] Option.none = "X" := by
  refine ⟨by decide, by decide, by decide, by decide⟩

/-- C8 amended: loadFactoryInfo resolves the factory code as the first truthy
of the factoryCode and factorycode query parameters, both matched by exact
spelling (not case-insensitively); the chosen value is trimmed, and when it
trims to empty the resolution falls through directly to the configured
environment default and then the literal default constant, not to the other
URL parameter; the display name is the resolved factory name, with the
em-dash placeholder on a lookup failure or a missing name. -/
theorem C8_factory_code_resolution_amended :
    (∀ (q : List (String × String)) (env : Option String) (s : String),
      urlGet q "factoryCode" = Option.some s → s ≠ "" → jsTrim s ≠ "" →
      resolveFactoryCode q env = jsTrim s)
    ∧ (∀ (q : List (String × String)) (env : Option String) (t : String),
        (urlGet q "factoryCode" = Option.none ∨ urlGet q "factoryCode" = Option.some "") →
        urlGet q "factorycode" = Option.some t → t ≠ "" → jsTrim t ≠ "" →
        resolveFactoryCode q env = jsTrim t)
    ∧ (∀ (q : List (String × String)) (env : Option String) (s : String),
        urlGet q "factoryCode" = Option.some s → s ≠ "" → jsTrim s = "" →
        resolveFactoryCode q env
          = (match jsOrS env Option.none with
             | Option.some e => e
             | Option.none => "DEFAULT_FACTORY_CODE"))
    ∧ factoryDisplayName (Except.error ()) = "—"
    ∧ (∀ (info : FactoryInfo) (n : String),
        info.factoryName = Option.some n → n ≠ "" →
        factoryDisplayName (Except.ok info) = n) := by
  refine ⟨?_, ?_, ?_, rfl, ?_⟩
  · intro q env s hq hs ht
    simp [resolveFactoryCode, hq, hs, jsOrS, ht]
  · intro q env t hq hqt ht htt
    cases hq with
    | inl h => simp [resolveFactoryCode, h, hqt, ht, jsOrS, htt]
    | inr h => simp [resolveFactoryCode, h, hqt, ht, jsOrS, htt]
  · intro q env s hq hs ht
    simp [resolveFactoryCode, hq, hs, jsOrS, ht]
  · intro info n hn hne
    simp [factoryDisplayName, orDefault, hn, hne]

/-- C8 witness: the amended resolution theorem applied at a concrete query
holding a padded factoryCode value and at a concrete successful factory
lookup. -/
theorem C8_factory_code_resolution_amended_witness :
    resolveFactoryCode [("factoryCode", " AB ")] Option.none = "AB"
    ∧ factoryDisplayName (Except.ok { factoryName := Option.some "Plant 7" }) = "Plant 7" :=
  ⟨C8_factory_code_resolution_amended.1 [("factoryCode", " AB ")] Option.none " AB "
      (by decide) (by decide) (by decide),
   C8_factory_code_resolution_amended.2.2.2.2 { factoryName := Option.some "Plant 7" }
      "Plant 7" rfl (by decide)⟩
